import Mathlib

/-!
Shallow embedding of the falling-block puzzle core of the `fallingblocks`
repository (src/components.rs, src/game.rs, src/systems.rs), together with
proofs settling the frozen claims about it.

Modelling conventions:
* Rust `u32` values are `Nat`; every `u32` addition/multiplication the source
  performs is wrapped explicitly with `% 2^32` (release-mode wrapping
  semantics) through the helpers `u32add` / `u32mul`.
* Rust `i32` coordinates are `Int` (board dimensions are tiny, so the
  `i32::try_from(..).unwrap_or(MAX)` conversions in the source never fail and
  are modelled as plain casts).
* `f32` timers and drop delays are modelled as exact rationals `ℚ`; every
  floating-point value the scoring code can actually produce
  (`base * 1.5` for base drawn from the fixed points table, and
  `(combo-1) * 0.5 * base` for even `base`) is exactly representable, so the
  rational model agrees with `f32` on the reachable values; the saturating
  `as u32` cast on the combo bonus is modelled with `min _ (2^32 - 1)`.
* External effects (terminal rendering, particles, audio, logging, the ghost
  preview component, wall-clock `Instant`/`KeyEvent` fields) are outside the
  core and omitted; `fastrand` draws are modelled by an explicit stream
  `rng : Nat → TetrominoType` threaded through the world.
-/

namespace FallingBlocks

/-- The 7 tetromino shapes (src/components.rs `TetrominoType`). -/
inductive TetrominoType where
  | I | J | L | O | S | T | Z
deriving DecidableEq

/-- Per-shape block offsets in rotation state 0
(src/components.rs `TetrominoType::get_blocks`). -/
def TetrominoType.get_blocks : TetrominoType → List (Int × Int)
  | .I => [(0, 0), (0, 1), (0, 2), (0, 3)]
  | .J => [(0, 0), (0, 1), (0, 2), (-1, 2)]
  | .L => [(0, 0), (0, 1), (0, 2), (1, 2)]
  | .O => [(0, 0), (0, 1), (1, 0), (1, 1)]
  | .S => [(0, 0), (0, 1), (1, 1), (1, 2)]
  | .T => [(0, 0), (0, 1), (0, 2), (1, 1)]
  | .Z => [(0, 0), (0, 1), (-1, 1), (-1, 2)]

/-- src/components.rs `Position` (i32 coordinates). -/
structure Position where
  x : Int
  y : Int
deriving DecidableEq

/-- src/components.rs `Tetromino`: a shape plus a rotation state (usize). -/
structure Tetromino where
  tetromino_type : TetrominoType
  rotation : Nat
deriving DecidableEq

/-- `Tetromino::new`: rotation state 0. -/
def Tetromino.new (t : TetrominoType) : Tetromino := ⟨t, 0⟩

/-- `Tetromino::get_blocks`: the shape offsets transformed by the rotation
state.  The source panics (`unreachable!()`) for rotation ≥ 4, which never
happens since `rotate` keeps the state `% 4`; that dead arm is modelled as
the empty list. -/
def Tetromino.get_blocks (t : Tetromino) : List (Int × Int) :=
  let blocks := t.tetromino_type.get_blocks
  match t.rotation with
  | 0 => blocks
  | 1 => blocks.map (fun p => (-p.2, p.1))
  | 2 => blocks.map (fun p => (-p.1, -p.2))
  | 3 => blocks.map (fun p => (p.2, -p.1))
  | _ + 4 => []

/-- `Tetromino::rotate`: advance the rotation state modulo 4. -/
def Tetromino.rotate (t : Tetromino) : Tetromino :=
  { t with rotation := (t.rotation + 1) % 4 }

/-- src/components.rs `Board`: a `width × height` grid of optional colors,
stored column-major (`cells[x][y]`) exactly as in the source. -/
structure Board where
  width : Nat
  height : Nat
  cells : List (List (Option TetrominoType))
deriving DecidableEq

/-- `Board::new`: all cells empty. -/
def Board.new (width height : Nat) : Board :=
  ⟨width, height, List.replicate width (List.replicate height none)⟩

/-- Read `cells[x][y]` (in-bounds accesses only, as in the source). -/
def Board.cellAt (b : Board) (x y : Nat) : Option TetrominoType :=
  (b.cells.getD x []).getD y none

/-- Write `cells[x][y]`. -/
def Board.setCell (b : Board) (x y : Nat) (v : Option TetrominoType) : Board :=
  { b with cells := b.cells.set x ((b.cells.getD x []).set y v) }

/-- `Board::is_valid_position`: every rotated block offset must land inside
`[0,width) × [0,height)` on an unoccupied cell. -/
def Board.is_valid_position (b : Board) (pos : Position) (t : Tetromino) : Bool :=
  t.get_blocks.all fun blk =>
    let x := pos.x + blk.1
    let y := pos.y + blk.2
    if x < 0 || (b.width : Int) ≤ x || y < 0 || (b.height : Int) ≤ y then false
    else (b.cellAt x.toNat y.toNat).isNone

/-- `Board::lock_tetromino`: write the piece type into every in-bounds cell
(out-of-bounds blocks are skipped defensively, as in the source). -/
def Board.lock_tetromino (b : Board) (pos : Position) (t : Tetromino) : Board :=
  t.get_blocks.foldl
    (fun acc blk =>
      let x := pos.x + blk.1
      let y := pos.y + blk.2
      if 0 ≤ x && x < (acc.width : Int) && 0 ≤ y && y < (acc.height : Int) then
        acc.setCell x.toNat y.toNat (some t.tetromino_type)
      else acc)
    b

/-- The inner loop of the line-clear compaction: `for y2 in (1..=y).rev()`
copy row `y2-1` into row `y2`, threading the mutated column through.
`copyRowsDown col y` runs the iterations `y2 = y, y-1, …, 1`. -/
def copyRowsDown (col : List (Option TetrominoType)) : Nat → List (Option TetrominoType)
  | 0 => col
  | n + 1 => copyRowsDown (col.set (n + 1) (col.getD n none)) n

/-- One iteration of the outer compaction loop of
`Board::clear_lines_with_indices` for a collected index `y`: shift the rows
above down by one, then clear row 0.  The source iterates `x` inside `y2`;
columns are independent, so the per-column loop is the same. -/
def Board.clearLineAt (b : Board) (y : Nat) : Board :=
  { b with cells := b.cells.map fun col => (copyRowsDown col y).set 0 none }

/-- Is row `y` fully occupied (the scan in `clear_lines_with_indices`)? -/
def Board.isLineFull (b : Board) (y : Nat) : Bool :=
  (List.range b.width).all fun x => (b.cellAt x y).isSome

/-- The collected indices of fully occupied rows, scanned `y = 0..height`. -/
def Board.fullLineIndices (b : Board) : List Nat :=
  (List.range b.height).filter fun y => b.isLineFull y

/-- `Board::clear_lines_with_indices`: collect the full rows top-to-bottom,
then process them in reverse (bottom-most first), shifting and clearing for
each; returns the mutated board together with the count and the collected
(pre-shift) indices. -/
def Board.clear_lines_with_indices (b : Board) : Board × Nat × List Nat :=
  let cleared := b.fullLineIndices
  let b2 := cleared.reverse.foldl (fun acc y => acc.clearLineAt y) b
  (b2, cleared.length, cleared)

/-! Constants from src/game.rs. -/

def BOARD_WIDTH : Nat := 10
def BOARD_HEIGHT : Nat := 20
/-- `COYOTE_TIME_DURATION = 0.05` seconds. -/
def COYOTE_TIME_DURATION : ℚ := 5 / 100
def POINTS_SINGLE : Nat := 40
def POINTS_DOUBLE : Nat := 100
def POINTS_TRIPLE : Nat := 300
def POINTS_TETRIS : Nat := 1200
def PERFECT_CLEAR_BONUS : Nat := 3000
def SOFT_DROP_POINTS : Nat := 1
def HARD_DROP_POINTS : Nat := 2
def TSPIN_SINGLE : Nat := 800
def TSPIN_DOUBLE : Nat := 1200
def TSPIN_TRIPLE : Nat := 1600
def LINES_PER_LEVEL : Nat := 10
def MAX_LEVEL : Nat := 30
def STARTING_LEVEL : Nat := 1

/-- `LEVEL_SCORE_THRESHOLDS`: ascending `(score threshold, level)` pairs. -/
def LEVEL_SCORE_THRESHOLDS : List (Nat × Nat) :=
  [(5000, 2), (15000, 3), (40000, 4), (70000, 5), (100000, 6), (150000, 7),
   (250000, 8), (400000, 9), (500000, 10), (600000, 11), (700000, 12),
   (800000, 13), (900000, 14), (1000000, 15), (1150000, 16), (1300000, 17),
   (1500000, 18), (1700000, 19), (2000000, 20), (2500000, 21), (3000000, 22),
   (3500000, 23), (4000000, 24), (4500000, 25), (5000000, 26), (5500000, 27),
   (6000000, 28), (7000000, 29), (10000000, 30)]

/-- `2^32`, the modulus of Rust `u32` arithmetic. -/
def U32_MOD : Nat := 4294967296

/-- Wrapping `u32` addition (release-mode Rust semantics). -/
def u32add (a b : Nat) : Nat := (a + b) % U32_MOD

/-- Wrapping `u32` multiplication (release-mode Rust semantics). -/
def u32mul (a b : Nat) : Nat := (a * b) % U32_MOD

/-- src/components.rs `GameState` (the core fields; the wall-clock
`last_move : Instant` and `last_key : Option<KeyEvent>` fields are external
input/timing bookkeeping never read by the game logic and are omitted). -/
structure GameState where
  score : Nat
  level : Nat
  lines_cleared : Nat
  game_over : Bool
  tetris_count : Nat
  t_spin_count : Nat
  perfect_clear_count : Nat
  combo_count : Nat
  back_to_back : Bool
  next_tetromino : Option TetrominoType
  was_paused_for_resize : Bool
  hard_drop_distance : Nat
  drop_timer : ℚ
  coyote_time_active : Bool
  coyote_time_timer : ℚ
  soft_drop_distance : Nat
  last_clear_was_difficult : Bool
deriving DecidableEq

/-- `GameState::default`. -/
def GameState.default : GameState :=
  { score := 0
    level := STARTING_LEVEL
    lines_cleared := 0
    game_over := false
    tetris_count := 0
    t_spin_count := 0
    perfect_clear_count := 0
    combo_count := 0
    back_to_back := false
    next_tetromino := none
    was_paused_for_resize := false
    hard_drop_distance := 0
    drop_timer := 0
    coyote_time_active := false
    coyote_time_timer := 0
    soft_drop_distance := 0
    last_clear_was_difficult := false }

/-- `GameState::is_perfect_clear`: the whole board is empty. -/
def GameState.is_perfect_clear (b : Board) : Bool :=
  (List.range b.height).all fun y =>
    (List.range b.width).all fun x => (b.cellAt x y).isNone

/-- `GameState::is_t_spin`: only for shape `T`; at least 3 of the 4 diagonal
neighbours of `origin + (1,1)` are outside the board or occupied. -/
def GameState.is_t_spin (b : Board) (pos : Position) (t : Tetromino) : Bool :=
  if t.tetromino_type ≠ TetrominoType.T then false
  else
    let cx := pos.x + 1
    let cy := pos.y + 1
    let corners : List (Int × Int) :=
      [(cx - 1, cy - 1), (cx + 1, cy - 1), (cx - 1, cy + 1), (cx + 1, cy + 1)]
    let blocked := corners.countP fun c =>
      c.1 < 0 || (b.width : Int) ≤ c.1 || c.2 < 0 || (b.height : Int) ≤ c.2 ||
        (b.cellAt c.1.toNat c.2.toNat).isSome
    decide (3 ≤ blocked)

/-- The `match` in `update_score` choosing the base points for a clear
(before the back-to-back multiplier). -/
def clearBasePoints (lines_cleared : Nat) (is_t_spin : Bool) : Nat :=
  if is_t_spin then
    match lines_cleared with
    | 1 => TSPIN_SINGLE
    | 2 => TSPIN_DOUBLE
    | 3 => TSPIN_TRIPLE
    | _ => 0
  else
    match lines_cleared with
    | 1 => POINTS_SINGLE
    | 2 => POINTS_DOUBLE
    | 3 => POINTS_TRIPLE
    | 4 => POINTS_TETRIS
    | _ => 0

/-- `(base_points as f32 * BACK_TO_BACK_MULTIPLIER) as u32` with
multiplier 1.5.  Every value `clearBasePoints` can produce is even and at
most 1600, so the `f32` product is exact and the saturating cast is the
identity; `base * 3 / 2` is that exact value. -/
def applyBackToBack (base : Nat) : Nat := base * 3 / 2

/-- The `base_points` value `update_score` ends up using: the table value,
multiplied by 1.5 when this clear is difficult and both `back_to_back` and
`last_clear_was_difficult` are already set from the previous clear
(src/components.rs lines 345-382). -/
def GameState.basePointsUsed (gs : GameState) (lines_cleared : Nat) (is_t_spin : Bool) : Nat :=
  let base := clearBasePoints lines_cleared is_t_spin
  let is_difficult := lines_cleared == 4 || is_t_spin
  if is_difficult && gs.last_clear_was_difficult && gs.back_to_back then
    applyBackToBack base
  else base

/-- `((combo_count - 1) as f32 * COMBO_MULTIPLIER * base_points as f32) as u32`
with multiplier 0.5.  `base` is always even, so the real value is the integer
`(combo_count - 1) * base / 2`; the saturating float-to-int cast is modelled
by `min _ (U32_MOD - 1)`.  (For `combo_count - 1 ≥ 2^24` the `f32` conversion
would round; no reachable game state gets near that.) -/
def comboBonus (combo_count base : Nat) : Nat :=
  if combo_count > 1 then min ((combo_count - 1) * base / 2) (U32_MOD - 1) else 0

/-- The early-`break` scan of `LEVEL_SCORE_THRESHOLDS` in `update_level`. -/
def scoreLevelScan : List (Nat × Nat) → Nat → Nat → Nat
  | [], _, acc => acc
  | p :: rest, score, acc =>
    if p.1 ≤ score then scoreLevelScan rest score p.2 else acc

/-- The level `update_level` assigns, as a function of score and total lines:
`min (max (lines/10 + 1) score_level) 30`. -/
def computedLevel (score lines : Nat) : Nat :=
  min (max (lines / LINES_PER_LEVEL + STARTING_LEVEL)
        (scoreLevelScan LEVEL_SCORE_THRESHOLDS score STARTING_LEVEL))
    MAX_LEVEL

/-- `GameState::update_level`. -/
def GameState.update_level (gs : GameState) : GameState :=
  { gs with level := computedLevel gs.score gs.lines_cleared }

/-- The `total_points` value of `update_score` (for `lines_cleared ≠ 0`):
`base_points * level + combo_bonus + perfect_clear_bonus + drop_bonus`, with
every `u32` operation wrapping. -/
def GameState.wrappedTotal
    (gs : GameState) (lines_cleared : Nat) (is_t_spin is_perfect_clear : Bool) : Nat :=
  u32add
    (u32add
      (u32add (u32mul (gs.basePointsUsed lines_cleared is_t_spin) gs.level)
        (comboBonus (u32add gs.combo_count 1) (gs.basePointsUsed lines_cleared is_t_spin)))
      (if is_perfect_clear then PERFECT_CLEAR_BONUS else 0))
    (u32add (u32mul gs.soft_drop_distance SOFT_DROP_POINTS)
      (u32mul gs.hard_drop_distance HARD_DROP_POINTS))

/-- The same total computed without any wrapping (plain `Nat` sums): the
score gain `update_score` would produce if no `u32` operation overflowed. -/
def GameState.rawScoreGain
    (gs : GameState) (lines_cleared : Nat) (is_t_spin is_perfect_clear : Bool) : Nat :=
  if lines_cleared == 0 then 0
  else
    gs.basePointsUsed lines_cleared is_t_spin * gs.level +
      comboBonus (u32add gs.combo_count 1) (gs.basePointsUsed lines_cleared is_t_spin) +
      (if is_perfect_clear then PERFECT_CLEAR_BONUS else 0) +
      (gs.soft_drop_distance * SOFT_DROP_POINTS +
        gs.hard_drop_distance * HARD_DROP_POINTS)

/-- `GameState::update_score` (src/components.rs lines 334-423).  The counter
increments that the source performs inside the `match` arms are written as
the equivalent conditional updates, and the `total_points` sum is the named
`wrappedTotal` (reading the same pre-call fields the source reads). -/
def GameState.update_score
    (gs : GameState) (lines_cleared : Nat) (is_t_spin is_perfect_clear : Bool) : GameState :=
  if lines_cleared == 0 then
    { gs with combo_count := 0 }
  else
    let combo := u32add gs.combo_count 1
    let tsc :=
      if is_t_spin && (lines_cleared == 1 || lines_cleared == 2 || lines_cleared == 3) then
        u32add gs.t_spin_count 1
      else gs.t_spin_count
    let ttc :=
      if !is_t_spin && lines_cleared == 4 then u32add gs.tetris_count 1 else gs.tetris_count
    let is_difficult := lines_cleared == 4 || is_t_spin
    let pcc :=
      if is_perfect_clear then u32add gs.perfect_clear_count 1 else gs.perfect_clear_count
    GameState.update_level
      { gs with
        combo_count := combo
        t_spin_count := tsc
        tetris_count := ttc
        back_to_back := is_difficult
        last_clear_was_difficult := is_difficult
        perfect_clear_count := pcc
        soft_drop_distance := 0
        hard_drop_distance := 0
        score := u32add gs.score (gs.wrappedTotal lines_cleared is_t_spin is_perfect_clear)
        lines_cleared := u32add gs.lines_cleared lines_cleared }

/-- `GameState::get_drop_delay` (level-dependent gravity delay, `f32`
modelled as `ℚ`). -/
def GameState.get_drop_delay (gs : GameState) : ℚ :=
  if gs.level < 10 then 8 / 10 - ((gs.level : ℚ) - 1) * (7 / 100)
  else if gs.level < 20 then 2 / 10 - ((gs.level : ℚ) - 10) * (1 / 100)
  else 1 / 10

/-- `GameState::update_hard_drop_score`: accumulate the distance; the points
themselves are only added by a later `update_score`. -/
def GameState.update_hard_drop_score (gs : GameState) (drop_distance : Nat) : GameState :=
  { gs with hard_drop_distance := u32add gs.hard_drop_distance drop_distance }

/-- The drop delay as a function of the level alone. -/
def dropDelayAt (level : Nat) : ℚ :=
  ({ GameState.default with level := level } : GameState).get_drop_delay

/-- src/components.rs `Input` (keyboard state resource). -/
structure Input where
  left : Bool
  right : Bool
  down : Bool
  rotate : Bool
  hard_drop : Bool
  hard_drop_released : Bool
  toggle_music : Bool
  volume_up : Bool
  volume_down : Bool
deriving DecidableEq

/-- `Input::default`: everything false. -/
def Input.default : Input :=
  ⟨false, false, false, false, false, false, false, false, false⟩

/-- src/components.rs `CoyoteTime` resource. -/
structure CoyoteTime where
  active : Bool
  timer : ℚ
deriving DecidableEq

/-- The ECS world restricted to the puzzle core: the board and game-state
resources, the (0-or-1) active tetromino entity with its position, the
coyote-time resource and the input resource.  The derived `Ghost` component
(recomputed every tick, never read by the logic modelled here) is omitted;
`fastrand` is modelled by the stream `rng` with cursor `rngIdx`. -/
structure GameWorld where
  board : Board
  piece : Option (Tetromino × Position)
  gs : GameState
  coyote : CoyoteTime
  input : Input
  rng : Nat → TetrominoType
  rngIdx : Nat

/-- src/systems.rs `spawn_tetromino`: despawn any active piece, reset the
input (preserving `hard_drop_released`), take the queued next shape (or a
random draw), queue a fresh random draw, and place the new piece at
`(BOARD_WIDTH/2, 0)` rotation 0; if that position is invalid, set
`game_over` instead of spawning. -/
def spawn_tetromino (w : GameWorld) : GameWorld :=
  let w0 := { w with
    piece := none
    input := { Input.default with hard_drop_released := w.input.hard_drop_released } }
  let pick : TetrominoType × Nat :=
    match w0.gs.next_tetromino with
    | some t => (t, w0.rngIdx)
    | none => (w0.rng w0.rngIdx, w0.rngIdx + 1)
  let w1 := { w0 with
    gs := { w0.gs with next_tetromino := some (w0.rng pick.2) }
    rngIdx := pick.2 + 1 }
  let t := Tetromino.new pick.1
  let pos : Position := ⟨(BOARD_WIDTH / 2 : Nat), 0⟩
  if w1.board.is_valid_position pos t then
    { w1 with piece := some (t, pos) }
  else
    { w1 with gs := { w1.gs with game_over := true } }

/-- src/systems.rs `handle_piece_lock`: T-spin check, lock into the board,
clear lines, perfect-clear check, scoring (or combo reset), despawn, and
spawn of the next piece.  Particle and sound hooks are external. -/
def handle_piece_lock (w : GameWorld) (t : Tetromino) (pos : Position) : GameWorld :=
  let is_t_spin := GameState.is_t_spin w.board pos t
  let locked := w.board.lock_tetromino pos t
  let res := locked.clear_lines_with_indices
  let board := res.1
  let lines_cleared := res.2.1
  let is_perfect_clear :=
    if lines_cleared > 0 then GameState.is_perfect_clear board else false
  let gs :=
    if lines_cleared > 0 then w.gs.update_score lines_cleared is_t_spin is_perfect_clear
    else { w.gs with combo_count := 0 }
  spawn_tetromino { w with board := board, gs := gs, piece := none }

/-- The `loop { test_y += 1; … }` search in `handle_hard_drop`, with fuel.
The source loop stops as soon as a descent is invalid; for any piece that has
at least one block, at most `height + 3` consecutive descents can be valid,
so fuel `height + 4` never runs out where the source terminates. -/
def dropDistanceGo (b : Board) (t : Tetromino) (x : Int) : Nat → Int → Nat
  | 0, _ => 0
  | fuel + 1, y =>
    if b.is_valid_position ⟨x, y + 1⟩ t then dropDistanceGo b t x fuel (y + 1) + 1
    else 0

/-- The hard-drop distance computed by `handle_hard_drop`. -/
def hardDropDistance (b : Board) (pos : Position) (t : Tetromino) : Nat :=
  dropDistanceGo b t pos.x (b.height + 4) pos.y

/-- src/systems.rs `handle_hard_drop`: find the drop distance; if it is 0,
return with nothing changed; otherwise record the distance for scoring, lock
the piece at the final position (note: without clearing lines or calling
`update_score`), despawn it and spawn the next piece. -/
def handle_hard_drop (w : GameWorld) : GameWorld :=
  match w.piece with
  | none => w
  | some (t, pos) =>
    let d := hardDropDistance w.board pos t
    if d == 0 then w
    else
      let gs := w.gs.update_hard_drop_score d
      let final_pos : Position := ⟨pos.x, pos.y + (d : Int)⟩
      let board := w.board.lock_tetromino final_pos t
      spawn_tetromino { w with gs := gs, board := board, piece := none }

/-- The rotation block of src/systems.rs `input_system` (lines 293-333):
apply the next rotation state, keep it only if the rotated piece is valid at
the current origin; otherwise nothing changes.  The particle and sound hooks
fired on success are external. -/
def input_rotate_step (w : GameWorld) : GameWorld :=
  match w.piece with
  | none => w
  | some (t, pos) =>
    let rotated := t.rotate
    if w.board.is_valid_position pos rotated then
      { w with piece := some (rotated, pos) }
    else w

/-- src/systems.rs `game_tick_system` restricted to the puzzle core
(particles, audio, music and the derived ghost update are external):
coyote-time bookkeeping and expiry (with one last descent re-check before
locking), then the gravity drop timer and automatic descent, activating
coyote time when a scheduled descent fails. -/
def game_tick_system (w : GameWorld) (dt : ℚ) : GameWorld :=
  if w.gs.game_over then w
  else if w.gs.coyote_time_active then
    let timer := w.coyote.timer + dt
    if COYOTE_TIME_DURATION ≤ timer then
      let w1 := { w with
        coyote := ⟨false, 0⟩
        gs := { w.gs with coyote_time_active := false, coyote_time_timer := 0 } }
      match w1.piece with
      | none => w1
      | some (t, pos) =>
        if w1.board.is_valid_position ⟨pos.x, pos.y + 1⟩ t then
          { w1 with
            piece := some (t, ⟨pos.x, pos.y + 1⟩)
            gs := { w1.gs with drop_timer := 0 } }
        else
          handle_piece_lock w1 t pos
    else
      { w with
        coyote := ⟨true, timer⟩
        gs := { w.gs with coyote_time_timer := timer } }
  else
    let w1 := { w with coyote := ⟨false, 0⟩ }
    let dtimer := w1.gs.drop_timer + dt
    if w1.gs.get_drop_delay ≤ dtimer then
      let w2 := { w1 with gs := { w1.gs with drop_timer := 0 } }
      match w2.piece with
      | none => spawn_tetromino w2
      | some (t, pos) =>
        if w2.board.is_valid_position ⟨pos.x, pos.y + 1⟩ t then
          { w2 with piece := some (t, ⟨pos.x, pos.y + 1⟩) }
        else
          { w2 with
            gs := { w2.gs with coyote_time_active := true, coyote_time_timer := 0 } }
    else
      { w1 with gs := { w1.gs with drop_timer := dtimer } }

/-! ## Concrete fixtures used by the claim theorems -/

/-- A 2-wide, 4-high board: row 0 empty, row 1 holding a single `J` block at
`x = 0`, rows 2 and 3 fully occupied by `I` blocks (`cells[x][y]`,
column-major). -/
def c1Board : Board :=
  ⟨2, 4, [[none, some .J, some .I, some .I], [none, none, some .I, some .I]]⟩

/-- Empty standard 10×20 board with an `I` piece freshly spawned at `(5,0)`
and a default game state. -/
def c2World : GameWorld :=
  { board := Board.new 10 20
    piece := some (Tetromino.new .I, ⟨5, 0⟩)
    gs := GameState.default
    coyote := ⟨false, 0⟩
    input := Input.default
    rng := fun _ => .I
    rngIdx := 0 }

/-! ## Claim theorems -/

/-- C1: evaluation of `clear_lines_with_indices` at a board whose full rows
are exactly {2, 3} (with a lone `J` block at `(0,1)` above them).  The claim
demands that both full rows are removed, row 1 shifts down by 2 to row 3,
the top rows end up empty, and `(2, [2, 3])` is returned.  The count and the
indices are as claimed, but the resulting grid is
`[[none, none, none, I], [none, none, none, I]]`: the bottom row is still a
fully occupied row (the old full row), the `J` block has been destroyed, and
row 1 did not arrive at row 3 — the bottom-first processing order shifts the
remaining full rows before their stored indices are processed. -/
theorem c1_clear_lines_bug :
    c1Board.fullLineIndices = [2, 3] ∧
    c1Board.clear_lines_with_indices.2 = (2, [2, 3]) ∧
    c1Board.clear_lines_with_indices.1.cells =
      [[none, none, none, some TetrominoType.I],
       [none, none, none, some TetrominoType.I]] ∧
    c1Board.clear_lines_with_indices.1.isLineFull 3 = true ∧
    c1Board.clear_lines_with_indices.1.cellAt 0 3 ≠ some TetrominoType.J := by
  decide

/-- `dropDelayAt` written out as the three-region formula. -/
lemma dropDelayAt_eq (l : Nat) :
    dropDelayAt l =
      if l < 10 then 8 / 10 - ((l : ℚ) - 1) * (7 / 100)
      else if l < 20 then 2 / 10 - ((l : ℚ) - 10) * (1 / 100)
      else 1 / 10 := rfl

/-- One gravity-delay step never increases the delay. -/
lemma dropDelayAt_step (l : Nat) : dropDelayAt (l + 1) ≤ dropDelayAt l := by
  rw [dropDelayAt_eq, dropDelayAt_eq]
  rcases Nat.lt_or_ge l 9 with h | h
  · rw [if_pos (by omega), if_pos (by omega)]
    push_cast
    linarith
  rcases Nat.lt_or_ge l 10 with h1 | h1
  · have hl : l = 9 := by omega
    subst hl
    norm_num
  rcases Nat.lt_or_ge l 19 with h2 | h2
  · have ha : ¬(l + 1 < 10) := by omega
    have hb : l + 1 < 20 := by omega
    have hc : ¬(l < 10) := by omega
    have hd : l < 20 := by omega
    rw [if_neg ha, if_neg hc, if_pos hb, if_pos hd]
    push_cast
    linarith
  rcases Nat.lt_or_ge l 20 with h3 | h3
  · have hl : l = 19 := by omega
    subst hl
    norm_num
  · have ha : ¬(l + 1 < 10) := by omega
    have hb : ¬(l + 1 < 20) := by omega
    have hc : ¬(l < 10) := by omega
    have hd : ¬(l < 20) := by omega
    rw [if_neg ha, if_neg hc, if_neg hb, if_neg hd]

/-- C7: the gravity delay is `0.8` at level 1, `0.2` at level 10 and `0.1`
at level 20, and it is non-increasing as the level ranges over `[1, 29]`. -/
theorem c7_drop_delay :
    dropDelayAt 1 = 8 / 10 ∧ dropDelayAt 10 = 2 / 10 ∧ dropDelayAt 20 = 1 / 10 ∧
    ∀ l m : Nat, 1 ≤ l → l ≤ m → m ≤ 29 → dropDelayAt m ≤ dropDelayAt l := by
  refine ⟨by rw [dropDelayAt_eq]; norm_num, by rw [dropDelayAt_eq]; norm_num,
    by rw [dropDelayAt_eq]; norm_num, ?_⟩
  intro l m h1 h2 h3
  clear h1 h3
  induction m, h2 using Nat.le_induction with
  | base => exact le_refl _
  | succ n hn ih => exact le_trans (dropDelayAt_step n) ih

/-- C7 witness: the non-increase applied at the concrete levels 5 ≤ 29. -/
theorem c7_drop_delay_witness : dropDelayAt 29 ≤ dropDelayAt 5 :=
  c7_drop_delay.2.2.2 5 29 (by decide) (by decide) (by decide)

/-- C8: `update_score` with `lines_cleared = 0` resets `combo_count` to 0
and leaves every other field — in particular score, level, lines, the
back-to-back flag and the two drop distances — unchanged. -/
theorem c8_zero_lines_noop (gs : GameState) (ts pc : Bool) :
    gs.update_score 0 ts pc = { gs with combo_count := 0 } ∧
    (gs.update_score 0 ts pc).score = gs.score ∧
    (gs.update_score 0 ts pc).level = gs.level ∧
    (gs.update_score 0 ts pc).lines_cleared = gs.lines_cleared ∧
    (gs.update_score 0 ts pc).back_to_back = gs.back_to_back ∧
    (gs.update_score 0 ts pc).soft_drop_distance = gs.soft_drop_distance ∧
    (gs.update_score 0 ts pc).hard_drop_distance = gs.hard_drop_distance ∧
    (gs.update_score 0 ts pc).combo_count = 0 := by
  refine ⟨rfl, rfl, rfl, rfl, rfl, rfl, rfl, rfl⟩

/-- C9: a rotation attempt whose rotated piece fails the validity check at
the current origin is a silent no-op: the whole world (piece rotation and
position, board, game state) is unchanged. -/
theorem c9_invalid_rotation_noop (w : GameWorld) (t : Tetromino) (pos : Position)
    (hp : w.piece = some (t, pos))
    (hv : w.board.is_valid_position pos t.rotate = false) :
    input_rotate_step w = w := by
  unfold input_rotate_step
  rw [hp]
  simp [hv]

/-- A 1-wide, 4-high empty board holding an upright `I` piece at `(0,0)`:
its rotation would stick out to the left, so rotating is invalid. -/
def c9World : GameWorld :=
  { board := Board.new 1 4
    piece := some (Tetromino.new .I, ⟨0, 0⟩)
    gs := GameState.default
    coyote := ⟨false, 0⟩
    input := Input.default
    rng := fun _ => .I
    rngIdx := 0 }

/-- C9 witness: the blocked rotation at the concrete world is a no-op. -/
theorem c9_invalid_rotation_noop_witness : input_rotate_step c9World = c9World :=
  c9_invalid_rotation_noop c9World (Tetromino.new .I) ⟨0, 0⟩ rfl (by decide)

/-- C10: when the active piece cannot descend even one row (the computed
hard-drop distance is 0), `handle_hard_drop` is a complete no-op: nothing is
locked, despawned, spawned or mutated. -/
theorem c10_hard_drop_noop (w : GameWorld) (t : Tetromino) (pos : Position)
    (hp : w.piece = some (t, pos))
    (hv : w.board.is_valid_position ⟨pos.x, pos.y + 1⟩ t = false) :
    handle_hard_drop w = w := by
  have hd : hardDropDistance w.board pos t = 0 := by
    unfold hardDropDistance
    have h4 : w.board.height + 4 = (w.board.height + 3) + 1 := rfl
    rw [h4]
    unfold dropDistanceGo
    rw [hv]
    simp
  unfold handle_hard_drop
  rw [hp]
  simp [hd]

/-- A 2×2 empty board entirely filled by an `O` piece at `(0,0)`: it cannot
descend, so its hard-drop distance is 0. -/
def c10World : GameWorld :=
  { board := Board.new 2 2
    piece := some (Tetromino.new .O, ⟨0, 0⟩)
    gs := GameState.default
    coyote := ⟨false, 0⟩
    input := Input.default
    rng := fun _ => .I
    rngIdx := 0 }

/-- C10 witness: the zero-distance hard drop at the concrete world is a
no-op. -/
theorem c10_hard_drop_noop_witness : handle_hard_drop c10World = c10World :=
  c10_hard_drop_noop c10World (Tetromino.new .O) ⟨0, 0⟩ rfl (by decide)

/-- C2 counterexample: in the hard-drop scenario (empty 10×20 board, `I`
piece at `(5,0)`, level 1, score 0) the claim predicts the score grows by
the drop-distance bonus `16 × 2 = 32` (scaled by level 1), but
`handle_hard_drop` never calls `update_score` at all — the score is still 0
after the drop. -/
theorem c2_hard_drop_counterexample :
    (handle_hard_drop c2World).gs.score = 0 ∧
    c2World.gs.score = 0 ∧
    c2World.gs.level = 1 ∧
    (handle_hard_drop c2World).gs.score ≠
      c2World.gs.score + 16 * 2 * c2World.gs.level := by
  decide

/-- C2 (amended): the immediate hard drop of the `I` piece spawned at
`(5,0)` on the empty 10×20 board locks exactly the four cells
`x = 5, y ∈ {16,17,18,19}` (the board becomes the empty board with the
piece locked at `(5,16)`), records `hard_drop_distance = 16`, clears no
lines (the resulting board has no full rows), and leaves the score
unchanged. -/
theorem c2_hard_drop_amended :
    (handle_hard_drop c2World).board =
      (Board.new 10 20).lock_tetromino ⟨5, 16⟩ (Tetromino.new .I) ∧
    (handle_hard_drop c2World).board.cellAt 5 16 = some TetrominoType.I ∧
    (handle_hard_drop c2World).board.cellAt 5 17 = some TetrominoType.I ∧
    (handle_hard_drop c2World).board.cellAt 5 18 = some TetrominoType.I ∧
    (handle_hard_drop c2World).board.cellAt 5 19 = some TetrominoType.I ∧
    (handle_hard_drop c2World).gs.hard_drop_distance = 16 ∧
    (handle_hard_drop c2World).board.fullLineIndices = [] ∧
    (handle_hard_drop c2World).gs.score = c2World.gs.score := by
  decide

/-- C5: a tetris (`update_score 4 false false`) from a first-clear state
(no running combo, no back-to-back history, no pending drop distances)
increases the score by exactly `1200 × level`, with no combo or
back-to-back bonus (the `u32` addition is assumed not to overflow). -/
theorem c5_tetris_score (gs : GameState)
    (hc : gs.combo_count = 0) (hb : gs.back_to_back = false)
    (hd : gs.last_clear_was_difficult = false)
    (hsd : gs.soft_drop_distance = 0) (hhd : gs.hard_drop_distance = 0)
    (hof : gs.score + 1200 * gs.level < U32_MOD) :
    (gs.update_score 4 false false).score = gs.score + 1200 * gs.level := by
  have h1 : 1200 * gs.level % U32_MOD = 1200 * gs.level :=
    Nat.mod_eq_of_lt (by omega)
  have hbase : clearBasePoints 4 false = 1200 := rfl
  simp only [GameState.update_score, GameState.update_level, GameState.wrappedTotal,
    GameState.basePointsUsed, hbase, comboBonus, applyBackToBack, u32add, u32mul,
    SOFT_DROP_POINTS, HARD_DROP_POINTS, hc, hb, hd, hsd, hhd]
  norm_num [h1]
  exact Nat.mod_eq_of_lt hof

/-- C5 witness: the tetris score increase at the default state (level 1). -/
theorem c5_tetris_score_witness :
    (GameState.default.update_score 4 false false).score =
      GameState.default.score + 1200 * GameState.default.level :=
  c5_tetris_score GameState.default rfl rfl rfl rfl rfl (by decide)

/-- C6 counterexample: if the state before the first of the two tetris
clears already has `back_to_back` and `last_clear_was_difficult` set (a
third consecutive tetris), both calls use base points 1800, so the second
call's base is not 1.5× the first's (2·1800 ≠ 3·1800). -/
theorem c6_b2b_counterexample :
    (let first := ({ GameState.default with
        back_to_back := true, last_clear_was_difficult := true } : GameState)
     first.basePointsUsed 4 false = 1800 ∧
     (first.update_score 4 false false).basePointsUsed 4 false = 1800 ∧
     ¬ 2 * ((first.update_score 4 false false).basePointsUsed 4 false) =
        3 * first.basePointsUsed 4 false) := by
  decide

/-- C6 (amended): for two consecutive `update_score` calls with 4 lines and
no T-spin, provided the state before the first call does not already have
both `back_to_back` and `last_clear_was_difficult` set, the first call uses
base points 1200 and the second 1800 — exactly 1.5× the first (both flags
having been set by the first call). -/
theorem c6_back_to_back_amended (gs : GameState) (pc : Bool)
    (h : gs.back_to_back = false ∨ gs.last_clear_was_difficult = false) :
    gs.basePointsUsed 4 false = 1200 ∧
    (gs.update_score 4 false pc).basePointsUsed 4 false = 1800 ∧
    2 * ((gs.update_score 4 false pc).basePointsUsed 4 false) =
      3 * gs.basePointsUsed 4 false := by
  have hbase : clearBasePoints 4 false = 1200 := rfl
  have hfirst : gs.basePointsUsed 4 false = 1200 := by
    rcases h with h | h <;>
      simp [GameState.basePointsUsed, hbase, h]
  have hsecond :
      (gs.update_score 4 false pc).basePointsUsed 4 false = 1800 := by
    simp [GameState.update_score, GameState.update_level, GameState.basePointsUsed,
      hbase, applyBackToBack]
  exact ⟨hfirst, hsecond, by rw [hfirst, hsecond]⟩

/-- C6 witness: the two consecutive tetris clears starting from the default
state. -/
theorem c6_back_to_back_witness :
    (GameState.default.update_score 4 false false).basePointsUsed 4 false = 1800 :=
  (c6_back_to_back_amended GameState.default false (Or.inl rfl)).2.1

/-! ## Monotonicity of the level computation (for C4) -/

/-- `a` lower-bounds the threshold table's levels, which are chained
non-decreasing (the shape that makes the early-`break` scan monotone). -/
def levelsLB : Nat → List (Nat × Nat) → Bool
  | _, [] => true
  | a, p :: rest => decide (a ≤ p.2) && levelsLB p.2 rest

lemma scoreLevelScan_ge_acc (tab : List (Nat × Nat)) (a s : Nat)
    (h : levelsLB a tab = true) : a ≤ scoreLevelScan tab s a := by
  induction tab generalizing a with
  | nil => exact le_refl _
  | cons p rest ih =>
    simp only [levelsLB, Bool.and_eq_true, decide_eq_true_eq] at h
    simp only [scoreLevelScan]
    split
    · exact le_trans h.1 (ih p.2 h.2)
    · exact le_refl _

lemma scoreLevelScan_mono (tab : List (Nat × Nat)) (a s s' : Nat)
    (h : levelsLB a tab = true) (hs : s ≤ s') :
    scoreLevelScan tab s a ≤ scoreLevelScan tab s' a := by
  induction tab generalizing a with
  | nil => exact le_refl _
  | cons p rest ih =>
    simp only [levelsLB, Bool.and_eq_true, decide_eq_true_eq] at h
    simp only [scoreLevelScan]
    rcases Nat.lt_or_ge s p.1 with h1 | h1
    · rw [if_neg (by omega)]
      rcases Nat.lt_or_ge s' p.1 with h2 | h2
      · rw [if_neg (by omega)]
      · rw [if_pos h2]
        exact le_trans h.1 (scoreLevelScan_ge_acc rest p.2 s' h.2)
    · rw [if_pos h1, if_pos (le_trans h1 hs)]
      exact ih p.2 h.2

lemma levelsLB_thresholds : levelsLB STARTING_LEVEL LEVEL_SCORE_THRESHOLDS = true := by
  decide

lemma computedLevel_mono (s s' l l' : Nat) (hs : s ≤ s') (hl : l ≤ l') :
    computedLevel s l ≤ computedLevel s' l' := by
  unfold computedLevel
  refine min_le_min (max_le_max ?_ ?_) (le_refl _)
  · exact Nat.add_le_add_right (Nat.div_le_div_right hl) _
  · exact scoreLevelScan_mono _ _ _ _ levelsLB_thresholds hs

lemma computedLevel_pos (s l : Nat) : 1 ≤ computedLevel s l := by
  unfold computedLevel
  refine le_min (le_trans ?_ (le_max_left _ _)) (by norm_num [MAX_LEVEL])
  simp [STARTING_LEVEL]

lemma computedLevel_le_30 (s l : Nat) : computedLevel s l ≤ 30 := by
  unfold computedLevel MAX_LEVEL
  exact min_le_right _ _

/-- Under a no-overflow bound, the wrapped `u32` total collapses to the
plain sum. -/
lemma u32_total_eq (x c p s h : Nat) (hx : x + c + p + (s + h) < U32_MOD) :
    u32add (u32add (u32add (x % U32_MOD) c) p)
      (u32add (s % U32_MOD) (h % U32_MOD)) = x + c + p + (s + h) := by
  have hxm : x % U32_MOD = x := Nat.mod_eq_of_lt (by omega)
  have hsm : s % U32_MOD = s := Nat.mod_eq_of_lt (by omega)
  have hhm : h % U32_MOD = h := Nat.mod_eq_of_lt (by omega)
  simp only [u32add, hxm, hsm, hhm]
  have h1 : (x + c) % U32_MOD = x + c := Nat.mod_eq_of_lt (by omega)
  rw [h1]
  have h2 : (x + c + p) % U32_MOD = x + c + p := Nat.mod_eq_of_lt (by omega)
  rw [h2]
  have h3 : (s + h) % U32_MOD = s + h := Nat.mod_eq_of_lt (by omega)
  rw [h3]
  exact Nat.mod_eq_of_lt hx

/-- When the raw gain fits in `u32`, the wrapped total equals it. -/
lemma wrappedTotal_eq_raw (gs : GameState) (n : Nat) (ts pc : Bool)
    (hlt : gs.rawScoreGain (n + 1) ts pc < U32_MOD) :
    gs.wrappedTotal (n + 1) ts pc = gs.rawScoreGain (n + 1) ts pc := by
  have hraw : gs.rawScoreGain (n + 1) ts pc =
      gs.basePointsUsed (n + 1) ts * gs.level +
        comboBonus (u32add gs.combo_count 1) (gs.basePointsUsed (n + 1) ts) +
        (if pc then PERFECT_CLEAR_BONUS else 0) +
        (gs.soft_drop_distance * SOFT_DROP_POINTS +
          gs.hard_drop_distance * HARD_DROP_POINTS) := rfl
  rw [hraw]
  rw [hraw] at hlt
  simp only [GameState.wrappedTotal, u32mul]
  exact u32_total_eq _ _ _ _ _ hlt

/-- C4 counterexample: `update_score` on a state whose `level` field (30)
does not match the level derived from its score and lines recomputes the
level down to 1, so `level` decreases across that call, contrary to the
claim that it never decreases. -/
theorem c4_level_counterexample :
    (({ GameState.default with level := 30 } : GameState).update_score 1 false false).level
        = 1 ∧
    ({ GameState.default with level := 30 } : GameState).level = 30 ∧
    (({ GameState.default with level := 30 } : GameState).update_score 1 false false).level
        < ({ GameState.default with level := 30 } : GameState).level := by
  decide

/-- C4 (amended): across any `update_score` call on a state whose `level`
is the one `update_level` derives from its score and lines (the invariant
the game maintains: the default state satisfies it and `update_level` is
the only writer of `level`), and whose score and lines `u32` additions do
not overflow, the fields `score`, `level` and `lines_cleared` never
decrease and the resulting `level` stays within `[1, 30]`. -/
theorem c4_monotonic_amended (gs : GameState) (lc : Nat) (ts pc : Bool)
    (hcons : gs.level = computedLevel gs.score gs.lines_cleared)
    (hs : gs.score + gs.rawScoreGain lc ts pc < U32_MOD)
    (hl : gs.lines_cleared + lc < U32_MOD) :
    gs.score ≤ (gs.update_score lc ts pc).score ∧
    gs.level ≤ (gs.update_score lc ts pc).level ∧
    gs.lines_cleared ≤ (gs.update_score lc ts pc).lines_cleared ∧
    1 ≤ (gs.update_score lc ts pc).level ∧
    (gs.update_score lc ts pc).level ≤ 30 := by
  cases lc with
  | zero =>
    have h0 : gs.update_score 0 ts pc = { gs with combo_count := 0 } := rfl
    rw [h0]
    refine ⟨le_refl _, le_refl _, le_refl _, ?_, ?_⟩
    · show 1 ≤ gs.level
      rw [hcons]
      exact computedLevel_pos _ _
    · show gs.level ≤ 30
      rw [hcons]
      exact computedLevel_le_30 _ _
  | succ n =>
    have hsc : (gs.update_score (n + 1) ts pc).score =
        u32add gs.score (gs.wrappedTotal (n + 1) ts pc) := rfl
    have hln : (gs.update_score (n + 1) ts pc).lines_cleared =
        u32add gs.lines_cleared (n + 1) := rfl
    have hlv : (gs.update_score (n + 1) ts pc).level =
        computedLevel (u32add gs.score (gs.wrappedTotal (n + 1) ts pc))
          (u32add gs.lines_cleared (n + 1)) := rfl
    have hrawlt : gs.rawScoreGain (n + 1) ts pc < U32_MOD := by omega
    have hT := wrappedTotal_eq_raw gs n ts pc hrawlt
    have hscore_eq : u32add gs.score (gs.wrappedTotal (n + 1) ts pc) =
        gs.score + gs.rawScoreGain (n + 1) ts pc := by
      rw [hT]
      exact Nat.mod_eq_of_lt hs
    have hlines_eq : u32add gs.lines_cleared (n + 1) =
        gs.lines_cleared + (n + 1) := Nat.mod_eq_of_lt hl
    refine ⟨?_, ?_, ?_, ?_, ?_⟩
    · rw [hsc, hscore_eq]
      exact Nat.le_add_right _ _
    · rw [hlv, hscore_eq, hlines_eq, hcons]
      exact computedLevel_mono _ _ _ _ (Nat.le_add_right _ _) (Nat.le_add_right _ _)
    · rw [hln, hlines_eq]
      exact Nat.le_add_right _ _
    · rw [hlv]
      exact computedLevel_pos _ _
    · rw [hlv]
      exact computedLevel_le_30 _ _

/-- C3: the coyote-time (grace) protocol of `game_tick_system`, for a tick
with an active piece and the game not over:
1. activation — when the scheduled automatic descent fails (the drop timer
   reaches the gravity delay but the piece cannot move down) while the grace
   timer is inactive, the tick activates it with its timer starting at 0 and
   moves nothing;
2. accumulation — while active, the tick adds `dt` to the grace timer and,
   below the 0.05 s threshold, moves nothing;
3. expiry while blocked — once the accumulated time reaches 0.05 s,
   descendibility is re-checked; if the piece still cannot descend, the tick
   is exactly `handle_piece_lock` at the piece's current (pre-grace)
   position;
4. expiry while descendible — if the re-check succeeds instead, the piece
   moves down one row and the drop timer resets. -/
theorem c3_coyote_time (w : GameWorld) (dt : ℚ) (t : Tetromino) (pos : Position)
    (hgo : w.gs.game_over = false)
    (hpiece : w.piece = some (t, pos)) :
    (w.gs.coyote_time_active = false →
      w.gs.get_drop_delay ≤ w.gs.drop_timer + dt →
      w.board.is_valid_position ⟨pos.x, pos.y + 1⟩ t = false →
      (game_tick_system w dt).gs.coyote_time_active = true ∧
      (game_tick_system w dt).gs.coyote_time_timer = 0 ∧
      (game_tick_system w dt).piece = some (t, pos) ∧
      (game_tick_system w dt).board = w.board) ∧
    (w.gs.coyote_time_active = true →
      w.coyote.timer + dt < COYOTE_TIME_DURATION →
      (game_tick_system w dt).coyote = ⟨true, w.coyote.timer + dt⟩ ∧
      (game_tick_system w dt).gs.coyote_time_timer = w.coyote.timer + dt ∧
      (game_tick_system w dt).piece = some (t, pos) ∧
      (game_tick_system w dt).board = w.board) ∧
    (w.gs.coyote_time_active = true →
      COYOTE_TIME_DURATION ≤ w.coyote.timer + dt →
      w.board.is_valid_position ⟨pos.x, pos.y + 1⟩ t = false →
      game_tick_system w dt =
        handle_piece_lock
          { w with
            coyote := ⟨false, 0⟩
            gs := { w.gs with coyote_time_active := false, coyote_time_timer := 0 } }
          t pos) ∧
    (w.gs.coyote_time_active = true →
      COYOTE_TIME_DURATION ≤ w.coyote.timer + dt →
      w.board.is_valid_position ⟨pos.x, pos.y + 1⟩ t = true →
      (game_tick_system w dt).piece = some (t, ⟨pos.x, pos.y + 1⟩) ∧
      (game_tick_system w dt).gs.drop_timer = 0 ∧
      (game_tick_system w dt).gs.coyote_time_active = false) := by
  refine ⟨?_, ?_, ?_, ?_⟩
  · intro ha hd hv
    unfold game_tick_system
    simp only [hgo, ha, hpiece, hv, Bool.false_eq_true, if_false, if_pos hd]
    simp
  · intro ha hlt
    unfold game_tick_system
    simp only [hgo, ha, hpiece, Bool.false_eq_true, if_false, if_true,
      if_neg (not_le.mpr hlt)]
    simp
  · intro ha hge hv
    unfold game_tick_system
    simp only [hgo, ha, hpiece, hv, Bool.false_eq_true, if_false, if_true, if_pos hge]
    try simp
  · intro ha hge hv
    unfold game_tick_system
    simp only [hgo, ha, hpiece, hv, Bool.false_eq_true, if_false, if_true, if_pos hge]
    try simp

/-- A 2×2 empty board entirely filled by an `O` piece at `(0,0)`, grace
timer inactive, used to exercise the activation branch of C3. -/
def c3WorldA : GameWorld :=
  { board := Board.new 2 2
    piece := some (Tetromino.new .O, ⟨0, 0⟩)
    gs := GameState.default
    coyote := ⟨false, 0⟩
    input := Input.default
    rng := fun _ => .I
    rngIdx := 0 }

/-- The same world with the grace timer already active. -/
def c3WorldB : GameWorld :=
  { c3WorldA with
    gs := { GameState.default with coyote_time_active := true }
    coyote := ⟨true, 0⟩ }

/-- C3 witness: at the concrete blocked world, a tick of 1 s activates the
grace timer at 0, and once active a tick of 1 s ≥ 0.05 s locks the piece at
its pre-grace position (the tick equals `handle_piece_lock` there). -/
theorem c3_coyote_time_witness :
    ((game_tick_system c3WorldA 1).gs.coyote_time_active = true ∧
      (game_tick_system c3WorldA 1).gs.coyote_time_timer = 0 ∧
      (game_tick_system c3WorldA 1).piece = some (Tetromino.new .O, ⟨0, 0⟩) ∧
      (game_tick_system c3WorldA 1).board = c3WorldA.board) ∧
    game_tick_system c3WorldB 1 =
      handle_piece_lock
        { c3WorldB with
          coyote := ⟨false, 0⟩
          gs := { c3WorldB.gs with coyote_time_active := false, coyote_time_timer := 0 } }
        (Tetromino.new .O) ⟨0, 0⟩ :=
  ⟨(c3_coyote_time c3WorldA 1 (Tetromino.new .O) ⟨0, 0⟩ rfl rfl).1 rfl
      (by norm_num [GameState.get_drop_delay, GameState.default, STARTING_LEVEL, c3WorldA])
      (by decide),
    (c3_coyote_time c3WorldB 1 (Tetromino.new .O) ⟨0, 0⟩ rfl rfl).2.2.1 rfl
      (by norm_num [COYOTE_TIME_DURATION, c3WorldB, c3WorldA])
      (by decide)⟩

/-- C4 witness: the amended monotonicity applied to a single-line clear from
the default state. -/
theorem c4_monotonic_witness :
    GameState.default.score ≤ (GameState.default.update_score 1 false false).score ∧
    GameState.default.level ≤ (GameState.default.update_score 1 false false).level ∧
    GameState.default.lines_cleared ≤
      (GameState.default.update_score 1 false false).lines_cleared ∧
    1 ≤ (GameState.default.update_score 1 false false).level ∧
    (GameState.default.update_score 1 false false).level ≤ 30 :=
  c4_monotonic_amended GameState.default 1 false false (by decide) (by decide) (by decide)

end FallingBlocks
